import Mathlib

/-!
Shallow embedding of the public-infrastructure issue-reporting server
(`src/index.js`, with the earlier revision `src/unnamed/part_000`).

The four MongoDB collections (users, issues, payments, timelines) become
lists of records; `findOne` becomes `List.find?`, `insertOne` becomes list
append, `updateOne` becomes an update of the first matching element,
`deleteOne` removes the first matching element and `deleteMany` filters.
Mongo `_id` values and dates are modelled as `String` and `Nat`.
JavaScript string truthiness (`""`/`null` falsy) is modelled by comparison
with the empty string.
-/

namespace PublicInfra

/-- A document of the `users` collection (fields written by `POST /users`
and by the settlement / profile handlers). `premiumActivatedAt = 0` stands
for an absent field. -/
structure User where
  id : String
  email : String
  displayName : String
  photoURL : String
  role : String
  isPremium : Bool
  isBlocked : Bool
  premiumActivatedAt : Nat
deriving DecidableEq

/-- A document of the `issues` collection, with the fields written by
`POST /issues` and the admin / staff / payment handlers. -/
structure Issue where
  id : String
  title : String
  description : String
  category : String
  location : String
  image : String
  reporterEmail : String
  reporterName : String
  reporterId : String
  status : String
  priority : String
  isBoosted : Bool
  upvotes : List String
  upvoteCount : Nat
  assignedStaffId : String
  assignedStaffName : String
  assignedStaffEmail : String
  assignedStaffPhoto : String
  createdAt : Nat
  updatedAt : Nat
deriving DecidableEq

/-- A document of the `payments` collection as built in `PATCH /payment-success`. -/
structure Payment where
  amount : Nat
  currency : String
  customerName : String
  customerEmail : String
  customerImage : String
  transactionId : String
  paymentStatus : String
  paymentType : String
  issueId : String
  issueTitle : String
  paidAt : Nat
deriving DecidableEq

/-- A document of the `timelines` collection as built by the `logTimeline` helper. -/
structure TimelineEntry where
  issueId : String
  status : String
  message : String
  updatedByName : String
  updatedByEmail : String
  updatedByRole : String
  createdAt : Nat
deriving DecidableEq

/-- The state of the document store: the four collections the lifecycle
handlers touch. -/
structure Store where
  users : List User
  issues : List Issue
  payments : List Payment
  timelines : List TimelineEntry
deriving DecidableEq

/-- Mongo `updateOne`: rewrite the first element satisfying `p` with `f`. -/
def updateFirst (p : α → Bool) (f : α → α) : List α → List α
  | [] => []
  | x :: xs => if p x then f x :: xs else x :: updateFirst p f xs

/-- Mongo `deleteOne`: remove the first element satisfying `p`. -/
def removeFirst (p : α → Bool) : List α → List α
  | [] => []
  | x :: xs => if p x then xs else x :: removeFirst p xs

/-- Outcome of the role gates `verifyAdmin` / `verifyStaff` / `verifyCitizen`:
either the resolved user record attached to the request (`req.currentUser`)
or a 403 response. -/
inductive GateResult
  | ok (u : User)
  | forbidden (message : String)
deriving DecidableEq

/-- Generic handler outcome: a success, or an HTTP error response
(status code plus message). `err 500` models an uncaught exception in the
JS handler (e.g. a property access on `null`). -/
inductive StatusResult
  | ok
  | err (code : Nat) (message : String)
deriving DecidableEq

/-- `verifyAdmin` middleware (src/index.js lines 80-90): resolve the stored
user by the token email and require the role to be exactly `admin`. -/
def verifyAdmin (st : Store) (email : String) : GateResult :=
  match st.users.find? (fun u => u.email == email) with
  | none => .forbidden "Forbidden Access"
  | some u => if u.role = "admin" then .ok u else .forbidden "Forbidden Access"

/-- `verifyStaff` middleware (src/index.js lines 92-102). -/
def verifyStaff (st : Store) (email : String) : GateResult :=
  match st.users.find? (fun u => u.email == email) with
  | none => .forbidden "Forbidden Access"
  | some u => if u.role = "staff" then .ok u else .forbidden "Forbidden Access"

/-- `verifyCitizen` middleware (src/index.js lines 104-114). -/
def verifyCitizen (st : Store) (email : String) : GateResult :=
  match st.users.find? (fun u => u.email == email) with
  | none => .forbidden "Forbidden Access"
  | some u => if u.role = "citizen" then .ok u else .forbidden "Forbidden Access"

/-- The `allowedTransitions` table of `PATCH /staff/issues/:id/status`
(src/index.js lines 687-692); any state outside the table yields `[]`
(the `|| []` fallback). -/
def allowedTransitions (s : String) : List String :=
  if s = "pending" then ["in_progress"]
  else if s = "in_progress" then ["working"]
  else if s = "working" then ["resolved"]
  else if s = "resolved" then ["closed"]
  else []

/-- `PATCH /staff/issues/:id/status` (src/index.js lines 664-722), after the
token and staff gates: requires a non-empty `newStatus`, an existing issue,
the caller to be the assigned staff, and the transition to be in the table;
on success updates status and timestamp and appends one timeline entry. -/
def staffUpdateStatus (st : Store) (id email displayName newStatus : String)
    (now : Nat) : StatusResult × Store :=
  if newStatus = "" then (.err 400 "New status is required", st)
  else
    match st.issues.find? (fun i => i.id == id) with
    | none => (.err 404 "Issue not found", st)
    | some issue =>
      if issue.assignedStaffEmail ≠ email then (.err 403 "Forbidden Access", st)
      else if newStatus ∈ allowedTransitions issue.status then
        (.ok,
          { st with
            issues := updateFirst (fun i => i.id == id)
              (fun i => { i with status := newStatus, updatedAt := now }) st.issues,
            timelines := st.timelines ++
              [{ issueId := id, status := newStatus,
                 message := "Status changed by staff (" ++ issue.status ++ " → " ++ newStatus ++ ")",
                 updatedByName := displayName, updatedByEmail := email,
                 updatedByRole := "staff", createdAt := now }] })
      else
        (.err 400 ("Invalid status transition from " ++ issue.status ++ " to " ++ newStatus), st)

/-- `PATCH /admin/issues/:id/reject` handler body (src/index.js lines
1027-1055), given the resolved `req.currentUser` from `verifyAdmin`:
only a `pending` issue may be rejected; on success the status becomes
`rejected` and one timeline entry is appended whose actor role is
`caller.role`. A missing issue crashes the JS handler (`issue.status` on
`null`), modelled as `err 500`. -/
def rejectIssue (st : Store) (caller : User) (tokenEmail id : String)
    (now : Nat) : StatusResult × Store :=
  match st.issues.find? (fun i => i.id == id) with
  | none => (.err 500 "Internal error", st)
  | some issue =>
    if issue.status ≠ "pending" then (.err 400 "Only pending issues can be rejected", st)
    else
      (.ok,
        { st with
          issues := updateFirst (fun i => i.id == id)
            (fun i => { i with status := "rejected", updatedAt := now }) st.issues,
          timelines := st.timelines ++
            [{ issueId := id, status := "rejected", message := "Issue rejected by admin",
               updatedByName := caller.displayName, updatedByEmail := tokenEmail,
               updatedByRole := caller.role, createdAt := now }] })

/-- The full `PATCH /admin/issues/:id/reject` route: `verifyAdmin` composed
with the handler body. -/
def adminRejectIssue (st : Store) (tokenEmail id : String) (now : Nat) :
    StatusResult × Store :=
  match verifyAdmin st tokenEmail with
  | .forbidden m => (.err 403 m, st)
  | .ok u => rejectIssue st u tokenEmail id now

/-- `PATCH /admin/issues/:id/assign-staff` handler body (src/index.js lines
979-1025), given the resolved admin. A truthy `assignedStaffId` blocks the
assignment; otherwise the staff user is looked up by `staffId` (a missing
staff crashes the JS handler at `staff.displayName`, modelled as `err 500`)
and one `$set` writes the four assignment fields plus `updatedAt`. -/
def assignStaff (st : Store) (caller : User) (tokenEmail id staffId : String)
    (now : Nat) : StatusResult × Store :=
  match st.issues.find? (fun i => i.id == id) with
  | none => (.err 500 "Internal error", st)
  | some issue =>
    if issue.assignedStaffId ≠ "" then
      (.err 400 "Staff already assigned for this issue", st)
    else
      match st.users.find? (fun u => u.id == staffId) with
      | none => (.err 500 "Internal error", st)
      | some staff =>
        (.ok,
          { st with
            issues := updateFirst (fun i => i.id == id)
              (fun i => { i with
                assignedStaffId := staffId,
                assignedStaffName := staff.displayName,
                assignedStaffEmail := staff.email,
                assignedStaffPhoto := staff.photoURL,
                updatedAt := now }) st.issues,
            timelines := st.timelines ++
              [{ issueId := id, status := issue.status,
                 message := "Issue assigned to staff: " ++ staff.displayName,
                 updatedByName := caller.displayName, updatedByEmail := tokenEmail,
                 updatedByRole := "admin", createdAt := now }] })

/-- The editable part of a `PATCH /citizen/issues/:id` request body;
`image = ""` models an absent optional image. -/
structure EditBody where
  title : String
  description : String
  category : String
  location : String
  image : String
deriving DecidableEq

/-- `PATCH /citizen/issues/:id` handler body (src/index.js lines 479-525;
identical checks in src/unnamed/part_000 lines 259-305): 404 when the issue
is missing, then 403 when the caller is not the reporter, then 400 when the
status is not `pending`; on success the four text fields (and optionally the
image) are rewritten and one timeline entry with actor role `citizen` is
appended. -/
def citizenEditIssue (st : Store) (callerEmail displayName id : String)
    (body : EditBody) (now : Nat) : StatusResult × Store :=
  match st.issues.find? (fun i => i.id == id) with
  | none => (.err 404 "Issue not found", st)
  | some issue =>
    if issue.reporterEmail ≠ callerEmail then (.err 403 "Forbidden Access", st)
    else if issue.status ≠ "pending" then (.err 400 "Only pending issues can be edited", st)
    else
      (.ok,
        { st with
          issues := updateFirst (fun i => i.id == id)
            (fun i =>
              let i2 := { i with title := body.title, description := body.description,
                                 category := body.category, location := body.location,
                                 updatedAt := now }
              if body.image ≠ "" then { i2 with image := body.image } else i2) st.issues,
          timelines := st.timelines ++
            [{ issueId := id, status := issue.status, message := "Issue updated by citizen",
               updatedByName := displayName, updatedByEmail := callerEmail,
               updatedByRole := "citizen", createdAt := now }] })

/-- The fields `POST /issues` forces on the stored issue (src/index.js lines
329-341; src/unnamed/part_000 lines 178-190 is identical except that it
stores `assignedStaffId = null`, modelled as `""`). The request body is an
arbitrary issue-shaped document; every listed field is overwritten, and the
store supplies the new document id. Note `assignedStaffPhoto` is not in the
list. -/
def forceIssueFields (body : Issue) (user : User) (newId : String) (now : Nat) : Issue :=
  { body with
    id := newId,
    reporterEmail := user.email,
    reporterName := user.displayName,
    reporterId := user.id,
    status := "pending",
    priority := "normal",
    isBoosted := false,
    upvotes := [],
    upvoteCount := 0,
    assignedStaffId := "",
    assignedStaffName := "",
    assignedStaffEmail := "",
    createdAt := now,
    updatedAt := now }

/-- Outcome of an issue-creation handler. `quotaExceeded` carries the HTTP
code, the message and the `needSubscription` flag of the response body. -/
inductive CreateResult
  | ok
  | quotaExceeded (code : Nat) (message : String) (needSubscription : Bool)
  | err (code : Nat) (message : String)
deriving DecidableEq

/-- `POST /issues` of src/index.js (lines 319-355), after the token and
citizen gates: looks up the caller, forces the lifecycle fields, inserts the
issue and appends the creation timeline entry. There is no quota check in
this revision. A missing user crashes the handler (`user.email` on `null`),
modelled as `err 500`. -/
def createIssue (st : Store) (email : String) (body : Issue) (newId : String)
    (now : Nat) : CreateResult × Store :=
  match st.users.find? (fun u => u.email == email) with
  | none => (.err 500 "Internal error", st)
  | some user =>
    (.ok,
      { st with
        issues := st.issues ++ [forceIssueFields body user newId now],
        timelines := st.timelines ++
          [{ issueId := newId, status := "pending", message := "Issue reported by citizen",
             updatedByName := user.displayName, updatedByEmail := email,
             updatedByRole := "citizen", createdAt := now }] })

/-- `POST /issues` of src/unnamed/part_000 (lines 154-204), after the token
and not-blocked gates: rejects a missing user with 400, rejects a
non-premium caller whose reported-issue count is at least 3 with a 403
`needSubscription` response, and otherwise inserts like `createIssue`. -/
def createIssueQuota (st : Store) (email : String) (body : Issue) (newId : String)
    (now : Nat) : CreateResult × Store :=
  match st.users.find? (fun u => u.email == email) with
  | none => (.err 400 "User not found", st)
  | some user =>
    if user.isPremium = false ∧
        3 ≤ (st.issues.filter (fun i => i.reporterEmail == email)).length then
      (.quotaExceeded 403 "Free user issue limit exceeded" true, st)
    else
      (.ok,
        { st with
          issues := st.issues ++ [forceIssueFields body user newId now],
          timelines := st.timelines ++
            [{ issueId := newId, status := "pending", message := "Issue reported by citizen",
               updatedByName := user.displayName, updatedByEmail := email,
               updatedByRole := "citizen", createdAt := now }] })

/-- Outcome of `GET /issues/:email/limit` (src/index.js lines 291-317):
the 200 `allowPosting` response, the 429 quota response, or the 400
missing-user response. -/
inductive LimitResult
  | allowed
  | exceeded (code : Nat) (message : String) (needSubscription allowPostingFlag : Bool)
  | notFound (code : Nat) (message : String)
deriving DecidableEq

/-- `GET /issues/:email/limit` (src/index.js lines 291-317): the pre-flight
quota check of the index.js revision. -/
def checkIssueLimit (st : Store) (email : String) : LimitResult :=
  match st.users.find? (fun u => u.email == email) with
  | none => .notFound 400 "User not found"
  | some user =>
    if user.isPremium = false ∧
        3 ≤ (st.issues.filter (fun i => i.reporterEmail == email)).length then
      .exceeded 429 "Free user issue limit exceeded. Buy premium to post more issues" true false
    else
      .allowed

/-- The fields of the retrieved Stripe checkout session that
`PATCH /payment-success` reads. `paymentIntent = ""` models a session with
no `payment_intent`; the `meta*` fields are the session metadata and
`amountTotal` is in the smallest currency unit (divided by 100 in the
stored record, as in the source). -/
structure StripeSession where
  paymentIntent : String
  paymentStatus : String
  amountTotal : Nat
  currency : String
  customerEmail : String
  metaPaymentType : String
  metaUserName : String
  metaUserEmail : String
  metaUserImage : String
  metaIssueId : String
  metaIssueTitle : String
deriving DecidableEq

/-- The payment document built by `PATCH /payment-success`
(src/index.js lines 1214-1226). -/
def mkPayment (s : StripeSession) (now : Nat) : Payment :=
  { amount := s.amountTotal / 100,
    currency := s.currency,
    customerName := s.metaUserName,
    customerEmail := s.customerEmail,
    customerImage := s.metaUserImage,
    transactionId := s.paymentIntent,
    paymentStatus := s.paymentStatus,
    paymentType := s.metaPaymentType,
    issueId := s.metaIssueId,
    issueTitle := s.metaIssueTitle,
    paidAt := now }

/-- The business effect of a fresh settlement (src/index.js lines
1236-1269): for a `boost_issue` payment with a non-empty issue id, escalate
that issue to high priority, set its boosted flag and log a timeline entry;
for a `subscription` payment, activate the premium flag on the first user
matching the metadata email. -/
def applyBusinessEffect (st : Store) (s : StripeSession) (now : Nat) : Store :=
  let st1 :=
    if s.metaPaymentType = "boost_issue" ∧ s.metaIssueId ≠ "" then
      { st with
        issues := updateFirst (fun i => i.id == s.metaIssueId)
          (fun i => { i with priority := "high", isBoosted := true, updatedAt := now })
          st.issues,
        timelines := st.timelines ++
          [{ issueId := s.metaIssueId, status := "boosted",
             message := "Issue priority boosted (payment successful)",
             updatedByName := s.metaUserName, updatedByEmail := s.metaUserEmail,
             updatedByRole := "citizen", createdAt := now }] }
    else st
  if s.metaPaymentType = "subscription" then
    { st1 with
      users := updateFirst (fun u => u.email == s.metaUserEmail)
        (fun u => { u with isPremium := true, premiumActivatedAt := now }) st1.users }
  else st1

/-- Outcome of `PATCH /payment-success`: the soft failure responses, or the
settled response carrying `newlyCreated`, the transaction id and the payment
record looked up after settlement. -/
inductive SettleResult
  | softFail (message : String)
  | settled (newlyCreated : Bool) (transactionId : String) (paymentInfo : Option Payment)
deriving DecidableEq

/-- `PATCH /payment-success` (src/index.js lines 1192-1279): soft-fail when
the session has no payment intent or is not `paid`; otherwise perform the
`$setOnInsert`+`upsert` on the transaction id (insert only when no payment
with that id exists), apply the business effect only on a fresh insert, and
respond with the payment found for the transaction id. -/
def paymentSuccess (st : Store) (s : StripeSession) (now : Nat) :
    SettleResult × Store :=
  if s.paymentIntent = "" then
    (.softFail "No payment_intent found in Stripe session", st)
  else if s.paymentStatus ≠ "paid" then
    (.softFail "", st)
  else
    match st.payments.find? (fun p => p.transactionId == s.paymentIntent) with
    | some _ =>
      (.settled false s.paymentIntent
        (st.payments.find? (fun p => p.transactionId == s.paymentIntent)), st)
    | none =>
      let st1 := { st with payments := st.payments ++ [mkPayment s now] }
      let st2 := applyBusinessEffect st1 s now
      (.settled true s.paymentIntent
        (st2.payments.find? (fun p => p.transactionId == s.paymentIntent)), st2)

/-- `DELETE /admin/users/:id` handler body (src/index.js lines 1103-1121),
after the admin gate: self-deletion is refused with 400 before anything is
removed; otherwise (when the target has a truthy email) the Firebase account
(external, not modelled), the timeline entries authored by that email and
the issues reported by that email are removed, and finally the user record
itself. A missing user crashes the handler (`user.email` on `null`),
modelled as `err 500`. -/
def adminDeleteUser (st : Store) (tokenEmail id : String) : StatusResult × Store :=
  match st.users.find? (fun u => u.id == id) with
  | none => (.err 500 "Internal error", st)
  | some user =>
    if tokenEmail = user.email then (.err 400 "You can't delete yourself", st)
    else
      let st1 :=
        if user.email ≠ "" then
          { st with
            timelines := st.timelines.filter (fun tl => !(tl.updatedByEmail == user.email)),
            issues := st.issues.filter (fun i => !(i.reporterEmail == user.email)) }
        else st
      (.ok, { st1 with users := removeFirst (fun u => u.id == id) st1.users })

/-- Number of stored payment records carrying a given transaction id. -/
def payCount (st : Store) (t : String) : Nat :=
  (st.payments.filter (fun p => p.transactionId == t)).length

/-- The boost invariant on one issue record: a boosted issue has high priority. -/
def issueInv (i : Issue) : Prop :=
  i.isBoosted = true → i.priority = "high"

/-- The boost invariant over the whole store. -/
def storeInv (st : Store) : Prop :=
  ∀ i ∈ st.issues, issueInv i

instance (i : Issue) : Decidable (issueInv i) := by
  unfold issueInv; infer_instance

instance (st : Store) : Decidable (storeInv st) := by
  unfold storeInv; exact List.decidableBAll _ _

/-! Helper lemmas about the Mongo-style list operations. -/

theorem mem_updateFirst {p : α → Bool} {f : α → α} {l : List α} {x : α}
    (h : x ∈ updateFirst p f l) : x ∈ l ∨ ∃ y, y ∈ l ∧ x = f y := by
  induction l with
  | nil => simp [updateFirst] at h
  | cons a as ih =>
    simp only [updateFirst] at h
    split at h
    · rcases List.mem_cons.mp h with h1 | h1
      · exact Or.inr ⟨a, List.mem_cons_self a as, h1⟩
      · exact Or.inl (List.mem_cons_of_mem a h1)
    · rcases List.mem_cons.mp h with h1 | h1
      · exact Or.inl (h1 ▸ List.mem_cons_self a as)
      · rcases ih h1 with h2 | ⟨y, hy, hxy⟩
        · exact Or.inl (List.mem_cons_of_mem a h2)
        · exact Or.inr ⟨y, List.mem_cons_of_mem a hy, hxy⟩

theorem find?_updateFirst {p : α → Bool} (f : α → α) {l : List α} {x : α}
    (h : l.find? p = some x) (hf : ∀ y, p (f y) = p y) :
    (updateFirst p f l).find? p = some (f x) := by
  induction l with
  | nil => simp [List.find?] at h
  | cons a as ih =>
    cases hp : p a with
    | true =>
      rw [List.find?_cons_of_pos _ hp] at h
      injection h with h
      subst h
      simp only [updateFirst, if_pos hp]
      exact List.find?_cons_of_pos _ (by rw [hf]; exact hp)
    | false =>
      rw [List.find?_cons_of_neg _ (by simp [hp])] at h
      simp only [updateFirst, hp, if_neg Bool.false_ne_true]
      rw [List.find?_cons_of_neg _ (by simp [hp])]
      exact ih h

theorem mem_removeFirst {p : α → Bool} {l : List α} {x : α}
    (h : x ∈ removeFirst p l) : x ∈ l := by
  induction l with
  | nil => simp [removeFirst] at h
  | cons a as ih =>
    simp only [removeFirst] at h
    split at h
    · exact List.mem_cons_of_mem a h
    · rcases List.mem_cons.mp h with h1 | h1
      · exact h1 ▸ List.mem_cons_self a as
      · exact List.mem_cons_of_mem a (ih h1)

theorem find?_append_singleton {l : List α} {p : α → Bool} {a : α}
    (h : l.find? p = none) (ha : p a = true) : (l ++ [a]).find? p = some a := by
  rw [List.find?_append, h]
  simp [List.find?_cons_of_pos _ ha]

/-! Example records used to instantiate the theorems on concrete inputs. -/

def adminUserC9 : User :=
  { id := "u1", email := "ada@example.com", displayName := "Ada", photoURL := "",
    role := "admin", isPremium := false, isBlocked := false, premiumActivatedAt := 0 }

def staffUserC9 : User :=
  { id := "u2", email := "sam@example.com", displayName := "Sam", photoURL := "",
    role := "staff", isPremium := false, isBlocked := false, premiumActivatedAt := 0 }

def stC9 : Store :=
  { users := [adminUserC9, staffUserC9], issues := [], payments := [], timelines := [] }

/-- Claim C9: the capability gates are role-exact, not hierarchical — for
every stored user whose role is not exactly the required role, the
corresponding gate (citizen, staff or admin) answers `Forbidden Access`; in
particular an admin is rejected by the staff gate and a staff member by the
citizen gate. -/
theorem gates_role_exact (st : Store) (email : String) (u : User)
    (h : st.users.find? (fun x => x.email == email) = some u) :
    (u.role ≠ "admin" → verifyAdmin st email = GateResult.forbidden "Forbidden Access")
    ∧ (u.role ≠ "staff" → verifyStaff st email = GateResult.forbidden "Forbidden Access")
    ∧ (u.role ≠ "citizen" → verifyCitizen st email = GateResult.forbidden "Forbidden Access") := by
  refine ⟨?_, ?_, ?_⟩ <;> intro hr <;>
    simp [verifyAdmin, verifyStaff, verifyCitizen, h, hr]

/-- Witness for C9: an admin invoking the staff gate and a staff member
invoking the citizen gate are both rejected. -/
theorem gates_role_exact_witness :
    verifyStaff stC9 "ada@example.com" = GateResult.forbidden "Forbidden Access"
    ∧ verifyCitizen stC9 "sam@example.com" = GateResult.forbidden "Forbidden Access" := by
  have h1 := gates_role_exact stC9 "ada@example.com" adminUserC9 (by rfl)
  have h2 := gates_role_exact stC9 "sam@example.com" staffUserC9 (by rfl)
  exact ⟨h1.2.1 (by decide), h2.2.2 (by decide)⟩

def issueC1 : Issue :=
  { id := "i1", title := "Broken street light", description := "Pole 12 is dark",
    category := "Electricity", location := "Main Rd", image := "",
    reporterEmail := "carol@example.com", reporterName := "Carol", reporterId := "u3",
    status := "pending", priority := "normal", isBoosted := false, upvotes := [],
    upvoteCount := 0, assignedStaffId := "u2", assignedStaffName := "Sam",
    assignedStaffEmail := "sam@example.com", assignedStaffPhoto := "", createdAt := 1,
    updatedAt := 1 }

def stC1 : Store :=
  { users := [staffUserC9], issues := [issueC1], payments := [], timelines := [] }

/-- Claim C1: given an existing issue, an assigned-staff caller and a
supplied new status, the status advance succeeds exactly when the requested
status is in the allowed-successor set of the current status, and every
other request fails with the invalid-transition error naming both the
current and the requested status. -/
theorem statusAdvance_iff_allowed (st : Store) (id email displayName newStatus : String)
    (now : Nat) (issue : Issue)
    (hns : newStatus ≠ "")
    (hfind : st.issues.find? (fun i => i.id == id) = some issue)
    (hassigned : issue.assignedStaffEmail = email) :
    ((staffUpdateStatus st id email displayName newStatus now).1 = StatusResult.ok
      ↔ newStatus ∈ allowedTransitions issue.status)
    ∧ (newStatus ∉ allowedTransitions issue.status →
        (staffUpdateStatus st id email displayName newStatus now).1
          = StatusResult.err 400
              ("Invalid status transition from " ++ issue.status ++ " to " ++ newStatus)) := by
  constructor
  · constructor
    · intro hok
      by_contra hmem
      simp [staffUpdateStatus, hns, hfind, hassigned, hmem] at hok
    · intro hmem
      simp [staffUpdateStatus, hns, hfind, hassigned, hmem]
  · intro hmem
    simp [staffUpdateStatus, hns, hfind, hassigned, hmem]

/-- Witness for C1: on a pending issue the assigned staff may advance to
`in_progress` but a request for `working` fails naming `pending` and
`working`. -/
theorem statusAdvance_iff_allowed_witness :
    (staffUpdateStatus stC1 "i1" "sam@example.com" "Sam" "in_progress" 5).1 = StatusResult.ok
    ∧ (staffUpdateStatus stC1 "i1" "sam@example.com" "Sam" "working" 5).1
        = StatusResult.err 400 "Invalid status transition from pending to working" := by
  have h1 := statusAdvance_iff_allowed stC1 "i1" "sam@example.com" "Sam" "in_progress" 5
    issueC1 (by decide) (by rfl) (by rfl)
  have h2 := statusAdvance_iff_allowed stC1 "i1" "sam@example.com" "Sam" "working" 5
    issueC1 (by decide) (by rfl) (by rfl)
  refine ⟨h1.1.mpr (by decide), ?_⟩
  rw [h2.2 (by decide)]
  rfl

/-- Claim C4: for an existing issue and an admin caller, rejection succeeds
exactly when the status is `pending`; on success the status becomes
`rejected` (timestamp updated, everything else untouched) and exactly one
timeline entry with actor role `admin` is appended; otherwise it fails with
the invalid-state error and the store is unchanged. -/
theorem adminReject_pending_only (st : Store) (tokenEmail id : String) (now : Nat)
    (u : User) (issue : Issue)
    (hg : st.users.find? (fun x => x.email == tokenEmail) = some u)
    (hrole : u.role = "admin")
    (hfind : st.issues.find? (fun i => i.id == id) = some issue) :
    (issue.status = "pending" →
       (adminRejectIssue st tokenEmail id now).1 = StatusResult.ok
       ∧ ((adminRejectIssue st tokenEmail id now).2).issues.find? (fun i => i.id == id)
           = some { issue with status := "rejected", updatedAt := now }
       ∧ ((adminRejectIssue st tokenEmail id now).2).timelines
           = st.timelines ++
             [{ issueId := id, status := "rejected", message := "Issue rejected by admin",
                updatedByName := u.displayName, updatedByEmail := tokenEmail,
                updatedByRole := "admin", createdAt := now }])
    ∧ (issue.status ≠ "pending" →
        adminRejectIssue st tokenEmail id now
          = (StatusResult.err 400 "Only pending issues can be rejected", st)) := by
  have hadm : adminRejectIssue st tokenEmail id now = rejectIssue st u tokenEmail id now := by
    simp [adminRejectIssue, verifyAdmin, hg, hrole]
  constructor
  · intro hp
    rw [hadm]
    simp only [rejectIssue, hfind, hp]
    rw [if_neg (by simp)]
    refine ⟨rfl, ?_, ?_⟩
    · exact find?_updateFirst _ hfind (fun y => rfl)
    · rw [hrole]
  · intro hp
    rw [hadm]
    simp only [rejectIssue, hfind]
    rw [if_pos hp]

def stC4 : Store :=
  { users := [adminUserC9], issues := [issueC1], payments := [], timelines := [] }

/-- Witness for C4: the admin rejects a pending issue; the stored issue
becomes `rejected` and one admin timeline entry is appended. -/
theorem adminReject_pending_only_witness :
    (adminRejectIssue stC4 "ada@example.com" "i1" 7).1 = StatusResult.ok
    ∧ ((adminRejectIssue stC4 "ada@example.com" "i1" 7).2).issues.find?
        (fun i => i.id == "i1") = some { issueC1 with status := "rejected", updatedAt := 7 }
    ∧ ((adminRejectIssue stC4 "ada@example.com" "i1" 7).2).timelines
        = [{ issueId := "i1", status := "rejected", message := "Issue rejected by admin",
             updatedByName := "Ada", updatedByEmail := "ada@example.com",
             updatedByRole := "admin", createdAt := 7 }] := by
  have h := adminReject_pending_only stC4 "ada@example.com" "i1" 7 adminUserC9 issueC1
    (by rfl) (by rfl) (by rfl)
  have h2 := h.1 (by rfl)
  exact ⟨h2.1, h2.2.1, h2.2.2⟩

/-- Claim C5: for an existing issue with no assigned staff and an existing
target staff user, the admin assignment writes all four assignment fields
and the updated-timestamp in one update and changes nothing else on the
issue (in particular the status); if a staff is already assigned the call
fails with the already-assigned error and the store is unchanged. -/
theorem assignStaff_atomic (st : Store) (caller : User) (tokenEmail id staffId : String)
    (now : Nat) (issue : Issue) (staff : User)
    (hfind : st.issues.find? (fun i => i.id == id) = some issue)
    (hstaff : st.users.find? (fun u => u.id == staffId) = some staff) :
    (issue.assignedStaffId = "" →
       (assignStaff st caller tokenEmail id staffId now).1 = StatusResult.ok
       ∧ ((assignStaff st caller tokenEmail id staffId now).2).issues.find?
           (fun i => i.id == id)
           = some { issue with
               assignedStaffId := staffId,
               assignedStaffName := staff.displayName,
               assignedStaffEmail := staff.email,
               assignedStaffPhoto := staff.photoURL,
               updatedAt := now }
       ∧ ∃ e, ((assignStaff st caller tokenEmail id staffId now).2).timelines
            = st.timelines ++ [e] ∧ e.updatedByRole = "admin")
    ∧ (issue.assignedStaffId ≠ "" →
        assignStaff st caller tokenEmail id staffId now
          = (StatusResult.err 400 "Staff already assigned for this issue", st)) := by
  constructor
  · intro hempty
    simp only [assignStaff, hfind, hempty]
    rw [if_neg (by simp)]
    simp only [hstaff]
    refine ⟨trivial, ?_, ?_⟩
    · exact find?_updateFirst _ hfind (fun y => rfl)
    · exact ⟨_, rfl, rfl⟩
  · intro hfull
    simp only [assignStaff, hfind]
    rw [if_pos hfull]

def issueC5 : Issue :=
  { issueC1 with
    assignedStaffId := "",
    assignedStaffName := "",
    assignedStaffEmail := "" }

def stC5 : Store :=
  { users := [adminUserC9, staffUserC9], issues := [issueC5], payments := [],
    timelines := [] }

/-- Witness for C5: assigning staff Sam to an unassigned pending issue
populates the four assignment fields from Sam's record, leaves the status
`pending`, and a second assignment attempt on the already-assigned issue
fails and changes nothing. -/
theorem assignStaff_atomic_witness :
    (assignStaff stC5 adminUserC9 "ada@example.com" "i1" "u2" 9).1 = StatusResult.ok
    ∧ ((assignStaff stC5 adminUserC9 "ada@example.com" "i1" "u2" 9).2).issues.find?
        (fun i => i.id == "i1")
        = some { issueC5 with
            assignedStaffId := "u2", assignedStaffName := "Sam",
            assignedStaffEmail := "sam@example.com", assignedStaffPhoto := "",
            updatedAt := 9 }
    ∧ assignStaff stC1 adminUserC9 "ada@example.com" "i1" "u2" 9
        = (StatusResult.err 400 "Staff already assigned for this issue", stC1) := by
  have h := assignStaff_atomic stC5 adminUserC9 "ada@example.com" "i1" "u2" 9
    issueC5 staffUserC9 (by rfl) (by rfl)
  have h2 := h.1 (by rfl)
  have h3 := assignStaff_atomic stC1 adminUserC9 "ada@example.com" "i1" "u2" 9
    issueC1 staffUserC9 (by rfl) (by rfl)
  exact ⟨h2.1, h2.2.1, h3.2 (by decide)⟩

def issueC6 : Issue := { issueC1 with status := "in_progress" }

def stC6 : Store :=
  { users := [], issues := [issueC6], payments := [], timelines := [] }

def bodyC6 : EditBody :=
  { title := "t", description := "d", category := "c", location := "l", image := "" }

/-- Counterexample to claim C6 as stated: on an `in_progress` issue reported
by `carol@example.com`, an edit by the different caller `eve@example.com`
fails with `Forbidden Access` (403), not with the invalid-state error the
claim promises regardless of caller identity — the ownership check runs
before the status check. -/
theorem citizenEdit_order_cex :
    (citizenEditIssue stC6 "eve@example.com" "Eve" "i1" bodyC6 3).1
      = StatusResult.err 403 "Forbidden Access"
    ∧ (citizenEditIssue stC6 "eve@example.com" "Eve" "i1" bodyC6 3).1
      ≠ StatusResult.err 400 "Only pending issues can be edited" := by
  constructor
  · rfl
  · decide

/-- Claim C6 (amended): for an existing issue, an edit by a caller other
than the reporter fails with Forbidden whatever the status; an edit by the
reporter of a non-pending issue fails with InvalidState; only the reporter
editing a pending issue succeeds. In both failure cases the store is
unchanged. -/
theorem citizenEdit_checks (st : Store) (callerEmail displayName id : String)
    (body : EditBody) (now : Nat) (issue : Issue)
    (hfind : st.issues.find? (fun i => i.id == id) = some issue) :
    (issue.reporterEmail ≠ callerEmail →
      citizenEditIssue st callerEmail displayName id body now
        = (StatusResult.err 403 "Forbidden Access", st))
    ∧ (issue.reporterEmail = callerEmail → issue.status ≠ "pending" →
        citizenEditIssue st callerEmail displayName id body now
          = (StatusResult.err 400 "Only pending issues can be edited", st))
    ∧ (issue.reporterEmail = callerEmail → issue.status = "pending" →
        (citizenEditIssue st callerEmail displayName id body now).1 = StatusResult.ok) := by
  refine ⟨?_, ?_, ?_⟩
  · intro hown
    simp only [citizenEditIssue, hfind]
    rw [if_pos hown]
  · intro hown hstat
    simp only [citizenEditIssue, hfind, hown]
    rw [if_neg (by simp), if_pos hstat]
  · intro hown hstat
    simp only [citizenEditIssue, hfind, hown, hstat]
    rw [if_neg (by simp)]
    rw [if_neg (by simp)]

def stC6b : Store :=
  { users := [], issues := [issueC1], payments := [], timelines := [] }

/-- Witness for the amended C6: on the in-progress issue the stranger gets
Forbidden, the reporter gets the invalid-state error; on a pending issue the
reporter's edit succeeds. -/
theorem citizenEdit_checks_witness :
    citizenEditIssue stC6 "eve@example.com" "Eve" "i1" bodyC6 3
      = (StatusResult.err 403 "Forbidden Access", stC6)
    ∧ citizenEditIssue stC6 "carol@example.com" "Carol" "i1" bodyC6 3
      = (StatusResult.err 400 "Only pending issues can be edited", stC6)
    ∧ (citizenEditIssue stC6b "carol@example.com" "Carol" "i1" bodyC6 3).1
      = StatusResult.ok := by
  have h1 := citizenEdit_checks stC6 "eve@example.com" "Eve" "i1" bodyC6 3 issueC6 (by rfl)
  have h2 := citizenEdit_checks stC6 "carol@example.com" "Carol" "i1" bodyC6 3 issueC6 (by rfl)
  have h3 := citizenEdit_checks stC6b "carol@example.com" "Carol" "i1" bodyC6 3 issueC1 (by rfl)
  exact ⟨h1.1 (by decide), h2.2.1 (by decide) (by decide), h3.2.2 (by decide) (by decide)⟩

/-- Claim C7: deleting a user (whose record carries an email) through the
admin path removes every timeline entry authored by that email and every
issue reported by that email; a self-deletion (admin token email equal to
the target's email) fails with the invalid-operation error and deletes
nothing. -/
theorem deleteUser_cascade (st : Store) (tokenEmail id : String) (user : User)
    (hfind : st.users.find? (fun u => u.id == id) = some user)
    (hemail : user.email ≠ "") :
    (tokenEmail ≠ user.email →
      (adminDeleteUser st tokenEmail id).1 = StatusResult.ok
      ∧ (∀ tl ∈ ((adminDeleteUser st tokenEmail id).2).timelines,
          tl.updatedByEmail ≠ user.email)
      ∧ (∀ i ∈ ((adminDeleteUser st tokenEmail id).2).issues,
          i.reporterEmail ≠ user.email))
    ∧ (tokenEmail = user.email →
        adminDeleteUser st tokenEmail id
          = (StatusResult.err 400 "You can't delete yourself", st)) := by
  constructor
  · intro hne
    simp only [adminDeleteUser, hfind]
    rw [if_neg hne, if_pos hemail]
    refine ⟨rfl, ?_, ?_⟩
    · intro tl htl
      have := List.mem_filter.mp htl
      simpa using this.2
    · intro i hi
      have := List.mem_filter.mp hi
      simpa using this.2
  · intro heq
    simp only [adminDeleteUser, hfind]
    rw [if_pos heq]

def userC7 : User :=
  { id := "u3", email := "carol@example.com", displayName := "Carol", photoURL := "",
    role := "citizen", isPremium := false, isBlocked := false, premiumActivatedAt := 0 }

def tlC7 : TimelineEntry :=
  { issueId := "i1", status := "pending", message := "Issue reported by citizen",
    updatedByName := "Carol", updatedByEmail := "carol@example.com",
    updatedByRole := "citizen", createdAt := 1 }

def stC7 : Store :=
  { users := [adminUserC9, userC7], issues := [issueC1], payments := [],
    timelines := [tlC7] }

/-- Witness for C7: deleting Carol removes her issue and her timeline entry,
while Ada's attempt to delete her own record fails and leaves the store
untouched. -/
theorem deleteUser_cascade_witness :
    (adminDeleteUser stC7 "ada@example.com" "u3").1 = StatusResult.ok
    ∧ (∀ tl ∈ ((adminDeleteUser stC7 "ada@example.com" "u3").2).timelines,
        tl.updatedByEmail ≠ "carol@example.com")
    ∧ (∀ i ∈ ((adminDeleteUser stC7 "ada@example.com" "u3").2).issues,
        i.reporterEmail ≠ "carol@example.com")
    ∧ adminDeleteUser stC7 "ada@example.com" "u1"
      = (StatusResult.err 400 "You can't delete yourself", stC7) := by
  have h1 := deleteUser_cascade stC7 "ada@example.com" "u3" userC7 (by rfl) (by decide)
  have h2 := deleteUser_cascade stC7 "ada@example.com" "u1" adminUserC9 (by rfl) (by decide)
  have h3 := h1.1 (by decide)
  exact ⟨h3.1, h3.2.1, h3.2.2, h2.2 (by rfl)⟩

def issueC3a : Issue := { issueC5 with id := "i1" }

def issueC3b : Issue := { issueC5 with id := "i2" }

def issueC3c : Issue := { issueC5 with id := "i3" }

def stC3 : Store :=
  { users := [userC7], issues := [issueC3a, issueC3b, issueC3c], payments := [],
    timelines := [] }

/-- Counterexample to claim C3 as stated: in the `src/index.js` revision the
`POST /issues` handler performs no quota check — the non-premium citizen
Carol already has 3 issues, yet her creation request succeeds and a 4th
issue is inserted. (Only the earlier revision's creation handler and the
separate `GET /issues/:email/limit` endpoint enforce the quota.) -/
theorem quotaBypass_cex :
    userC7.isPremium = false
    ∧ (stC3.issues.filter (fun i => i.reporterEmail == "carol@example.com")).length = 3
    ∧ (createIssue stC3 "carol@example.com" issueC1 "i4" 9).1 = CreateResult.ok
    ∧ ((createIssue stC3 "carol@example.com" issueC1 "i4" 9).2).issues.length = 4 := by
  exact ⟨rfl, rfl, rfl, rfl⟩

/-- Claim C3 (amended): the quota is enforced by the part_000 revision's
creation handler and by index.js's pre-flight limit endpoint — a non-premium
citizen with at least 3 issues is rejected there with a needs-subscription
signal and nothing is inserted, and a premium citizen is never
quota-rejected — but the `POST /issues` handler of the index.js revision
itself inserts without any quota check. -/
theorem quota_enforced_amended (st : Store) (email : String) (body : Issue)
    (newId : String) (now : Nat) (user : User)
    (hfind : st.users.find? (fun u => u.email == email) = some user) :
    (user.isPremium = false →
      3 ≤ (st.issues.filter (fun i => i.reporterEmail == email)).length →
      createIssueQuota st email body newId now
        = (CreateResult.quotaExceeded 403 "Free user issue limit exceeded" true, st)
      ∧ checkIssueLimit st email
        = LimitResult.exceeded 429
            "Free user issue limit exceeded. Buy premium to post more issues" true false)
    ∧ (user.isPremium = true →
        (createIssueQuota st email body newId now).1 = CreateResult.ok
        ∧ ((createIssueQuota st email body newId now).2).issues
            = st.issues ++ [forceIssueFields body user newId now]
        ∧ checkIssueLimit st email = LimitResult.allowed)
    ∧ ((createIssue st email body newId now).1 = CreateResult.ok
       ∧ ((createIssue st email body newId now).2).issues
           = st.issues ++ [forceIssueFields body user newId now]) := by
  refine ⟨?_, ?_, ?_⟩
  · intro hprem hcount
    constructor
    · simp only [createIssueQuota, hfind]
      rw [if_pos ⟨hprem, hcount⟩]
    · simp only [checkIssueLimit, hfind]
      rw [if_pos ⟨hprem, hcount⟩]
  · intro hprem
    refine ⟨?_, ?_, ?_⟩
    · simp only [createIssueQuota, hfind]
      rw [if_neg (by simp [hprem])]
    · simp only [createIssueQuota, hfind]
      rw [if_neg (by simp [hprem])]
    · simp only [checkIssueLimit, hfind]
      rw [if_neg (by simp [hprem])]
  · exact ⟨by simp only [createIssue, hfind], by simp only [createIssue, hfind]⟩

def premiumUserC3 : User :=
  { userC7 with
    id := "u4",
    email := "dan@example.com",
    displayName := "Dan",
    isPremium := true }

def stC3b : Store :=
  { users := [userC7, premiumUserC3],
    issues := [issueC3a, issueC3b, issueC3c,
      { issueC3a with reporterEmail := "dan@example.com" },
      { issueC3b with reporterEmail := "dan@example.com" },
      { issueC3c with reporterEmail := "dan@example.com" }],
    payments := [], timelines := [] }

/-- Witness for the amended C3: non-premium Carol with 3 issues is rejected
by the part_000 creation handler and by the limit endpoint, while premium
Dan with 3 issues is allowed to create, and index.js's creation handler
inserts for Carol anyway. -/
theorem quota_enforced_amended_witness :
    createIssueQuota stC3b "carol@example.com" issueC1 "i9" 9
      = (CreateResult.quotaExceeded 403 "Free user issue limit exceeded" true, stC3b)
    ∧ checkIssueLimit stC3b "carol@example.com"
      = LimitResult.exceeded 429
          "Free user issue limit exceeded. Buy premium to post more issues" true false
    ∧ (createIssueQuota stC3b "dan@example.com" issueC1 "i9" 9).1 = CreateResult.ok
    ∧ checkIssueLimit stC3b "dan@example.com" = LimitResult.allowed
    ∧ (createIssue stC3b "carol@example.com" issueC1 "i9" 9).1 = CreateResult.ok := by
  have h1 := quota_enforced_amended stC3b "carol@example.com" issueC1 "i9" 9 userC7 (by rfl)
  have h2 := quota_enforced_amended stC3b "dan@example.com" issueC1 "i9" 9 premiumUserC3
    (by rfl)
  have h1a := h1.1 (by rfl) (by decide)
  have h2a := h2.2.1 (by rfl)
  exact ⟨h1a.1, h1a.2, h2a.1, h2a.2.2, h1.2.2.1⟩

def stC10 : Store :=
  { users := [userC7], issues := [], payments := [], timelines := [] }

def bodyC10 : Issue := { issueC1 with assignedStaffPhoto := "pic", status := "hacked" }

/-- Counterexample to claim C10 as stated: `POST /issues` does not force the
`assignedStaffPhoto` assignment field — a request body carrying
`assignedStaffPhoto = "pic"` is stored with that photo, so two bodies
differing only in an assignment field produce different stored issues. -/
theorem createIssue_photo_cex :
    (∃ i ∈ ((createIssue stC10 "carol@example.com" bodyC10 "i9" 2).2).issues,
        i.assignedStaffPhoto = "pic")
    ∧ ((createIssue stC10 "carol@example.com" bodyC10 "i9" 2).2).issues
      ≠ ((createIssue stC10 "carol@example.com"
            { bodyC10 with assignedStaffPhoto := "" } "i9" 2).2).issues := by
  constructor
  · exact ⟨forceIssueFields bodyC10 userC7 "i9" 2, by decide, rfl⟩
  · decide

/-- Claim C10 (amended): creation forces status `pending`, priority
`normal`, `isBoosted = false`, empty upvotes and the id/name/email
assignment fields, regardless of the request body; two bodies agreeing on
the pass-through fields (title, description, category, location, image and
`assignedStaffPhoto` — the one lifecycle-adjacent field that is not forced)
produce identically initialised issues. -/
theorem createIssue_forced_fields (st : Store) (email : String) (b1 b2 : Issue)
    (newId : String) (now : Nat) (user : User)
    (hfind : st.users.find? (fun u => u.email == email) = some user)
    (ht : b1.title = b2.title) (hd : b1.description = b2.description)
    (hc : b1.category = b2.category) (hl : b1.location = b2.location)
    (hi : b1.image = b2.image) (hp : b1.assignedStaffPhoto = b2.assignedStaffPhoto) :
    ((createIssue st email b1 newId now).2).issues
      = ((createIssue st email b2 newId now).2).issues
    ∧ (forceIssueFields b1 user newId now).status = "pending"
    ∧ (forceIssueFields b1 user newId now).priority = "normal"
    ∧ (forceIssueFields b1 user newId now).isBoosted = false
    ∧ (forceIssueFields b1 user newId now).upvotes = []
    ∧ (forceIssueFields b1 user newId now).upvoteCount = 0
    ∧ (forceIssueFields b1 user newId now).assignedStaffId = ""
    ∧ (forceIssueFields b1 user newId now).assignedStaffName = ""
    ∧ (forceIssueFields b1 user newId now).assignedStaffEmail = "" := by
  have heq : forceIssueFields b1 user newId now = forceIssueFields b2 user newId now := by
    cases b1
    cases b2
    simp_all [forceIssueFields]
  refine ⟨?_, rfl, rfl, rfl, rfl, rfl, rfl, rfl, rfl⟩
  simp only [createIssue, hfind, heq]

/-- Witness for the amended C10: two bodies differing only in forced fields
(here the supplied status) are stored identically, with all forced fields at
their server-chosen values. -/
theorem createIssue_forced_fields_witness :
    ((createIssue stC10 "carol@example.com" { issueC1 with status := "hacked" } "i9" 2).2).issues
      = ((createIssue stC10 "carol@example.com" { issueC1 with status := "closed" } "i9" 2).2).issues
    ∧ (forceIssueFields { issueC1 with status := "hacked" } userC7 "i9" 2).status = "pending"
    ∧ (forceIssueFields { issueC1 with status := "hacked" } userC7 "i9" 2).priority = "normal"
    ∧ (forceIssueFields { issueC1 with status := "hacked" } userC7 "i9" 2).isBoosted = false := by
  have h := createIssue_forced_fields stC10 "carol@example.com"
    { issueC1 with status := "hacked" } { issueC1 with status := "closed" } "i9" 2 userC7
    (by rfl) (by rfl) (by rfl) (by rfl) (by rfl) (by rfl) (by rfl)
  exact ⟨h.1, h.2.1, h.2.2.1, h.2.2.2.1⟩

theorem applyBusinessEffect_payments (st : Store) (s : StripeSession) (now : Nat) :
    (applyBusinessEffect st s now).payments = st.payments := by
  simp only [applyBusinessEffect]
  split <;> split <;> rfl

theorem applyBusinessEffect_issues (st : Store) (s : StripeSession) (now : Nat) :
    (applyBusinessEffect st s now).issues
      = if s.metaPaymentType = "boost_issue" ∧ s.metaIssueId ≠ "" then
          updateFirst (fun i => i.id == s.metaIssueId)
            (fun i => { i with priority := "high", isBoosted := true, updatedAt := now })
            st.issues
        else st.issues := by
  simp only [applyBusinessEffect]
  split <;> split <;> rfl

theorem applyBusinessEffect_users (st : Store) (s : StripeSession) (now : Nat) :
    (applyBusinessEffect st s now).users
      = if s.metaPaymentType = "subscription" then
          updateFirst (fun u => u.email == s.metaUserEmail)
            (fun u => { u with isPremium := true, premiumActivatedAt := now }) st.users
        else st.users := by
  simp only [applyBusinessEffect]
  split <;> split <;> rfl

theorem payCount_eq_zero_iff (st : Store) (t : String) :
    payCount st t = 0
      ↔ st.payments.find? (fun p => p.transactionId == t) = none := by
  simp [payCount, List.length_eq_zero, List.filter_eq_nil_iff, List.find?_eq_none]

theorem paymentSuccess_found (st : Store) (s : StripeSession) (now : Nat) (p : Payment)
    (hIntent : s.paymentIntent ≠ "") (hPaid : s.paymentStatus = "paid")
    (hfind : st.payments.find? (fun q => q.transactionId == s.paymentIntent) = some p) :
    paymentSuccess st s now
      = (SettleResult.settled false s.paymentIntent (some p), st) := by
  simp only [paymentSuccess]
  rw [if_neg hIntent, if_neg (by simp [hPaid]), hfind]

theorem paymentSuccess_fresh (st : Store) (s : StripeSession) (now : Nat)
    (hIntent : s.paymentIntent ≠ "") (hPaid : s.paymentStatus = "paid")
    (hfind : st.payments.find? (fun q => q.transactionId == s.paymentIntent) = none) :
    paymentSuccess st s now
      = (SettleResult.settled true s.paymentIntent (some (mkPayment s now)),
         applyBusinessEffect { st with payments := st.payments ++ [mkPayment s now] } s now) := by
  have hfind2 :
      ((applyBusinessEffect { st with payments := st.payments ++ [mkPayment s now] } s
          now).payments).find? (fun q => q.transactionId == s.paymentIntent)
        = some (mkPayment s now) := by
    rw [applyBusinessEffect_payments]
    exact find?_append_singleton hfind (by simp [mkPayment])
  simp only [paymentSuccess]
  rw [if_neg hIntent, if_neg (by simp [hPaid]), hfind]
  simp only [hfind2]

/-- Claim C2: settlement of a paid session with a payment intent is
idempotent — the count of payment records for the transaction id rises from
0 to 1 and otherwise stays; a replay changes nothing in the store yet still
answers with the stored settled payment; a fresh settlement inserts exactly
the new payment record, answers with it, and applies the boost or premium
business effect; and re-running settlement on the settled store is a no-op. -/
theorem payment_settlement_idempotent (st : Store) (s : StripeSession) (now now2 : Nat)
    (hIntent : s.paymentIntent ≠ "") (hPaid : s.paymentStatus = "paid") :
    (payCount (paymentSuccess st s now).2 s.paymentIntent
        = if payCount st s.paymentIntent = 0 then 1 else payCount st s.paymentIntent)
    ∧ (payCount st s.paymentIntent ≠ 0 →
        (paymentSuccess st s now).2 = st
        ∧ ∃ p, (paymentSuccess st s now).1
              = SettleResult.settled false s.paymentIntent (some p)
            ∧ p ∈ st.payments ∧ p.transactionId = s.paymentIntent)
    ∧ (payCount st s.paymentIntent = 0 →
        ((paymentSuccess st s now).2).payments = st.payments ++ [mkPayment s now]
        ∧ (paymentSuccess st s now).1
            = SettleResult.settled true s.paymentIntent (some (mkPayment s now))
        ∧ (s.metaPaymentType = "boost_issue" → s.metaIssueId ≠ "" →
            ((paymentSuccess st s now).2).issues
              = updateFirst (fun i => i.id == s.metaIssueId)
                  (fun i => { i with priority := "high", isBoosted := true, updatedAt := now })
                  st.issues)
        ∧ (s.metaPaymentType = "subscription" →
            ((paymentSuccess st s now).2).users
              = updateFirst (fun u => u.email == s.metaUserEmail)
                  (fun u => { u with isPremium := true, premiumActivatedAt := now })
                  st.users))
    ∧ (paymentSuccess (paymentSuccess st s now).2 s now2).2
        = (paymentSuccess st s now).2 := by
  cases hfind : st.payments.find? (fun q => q.transactionId == s.paymentIntent) with
  | some p =>
    have hred := paymentSuccess_found st s now p hIntent hPaid hfind
    have hnz : payCount st s.paymentIntent ≠ 0 := by
      intro h0
      rw [payCount_eq_zero_iff, hfind] at h0
      exact Option.noConfusion h0
    refine ⟨?_, ?_, ?_, ?_⟩
    · rw [hred, if_neg hnz]
    · intro _
      refine ⟨by rw [hred], p, by rw [hred], List.mem_of_find?_eq_some hfind, ?_⟩
      have := List.find?_some hfind
      simpa using this
    · intro h0
      exact absurd h0 hnz
    · rw [hred]
      rw [paymentSuccess_found st s now2 p hIntent hPaid hfind]
  | none =>
    have hred := paymentSuccess_fresh st s now hIntent hPaid hfind
    have h0 : payCount st s.paymentIntent = 0 := by
      rw [payCount_eq_zero_iff, hfind]
    have h0l : st.payments.filter (fun q => q.transactionId == s.paymentIntent) = [] :=
      List.length_eq_zero.mp h0
    have hpay : ((paymentSuccess st s now).2).payments
        = st.payments ++ [mkPayment s now] := by
      rw [hred]
      rw [applyBusinessEffect_payments]
    refine ⟨?_, ?_, ?_, ?_⟩
    · rw [if_pos h0]
      unfold payCount
      rw [hpay, List.filter_append, h0l]
      simp [mkPayment]
    · intro hnz
      exact absurd h0 hnz
    · intro _
      refine ⟨hpay, by rw [hred], ?_, ?_⟩
      · intro hb hbid
        rw [hred]
        show (applyBusinessEffect _ s now).issues = _
        rw [applyBusinessEffect_issues]
        rw [if_pos ⟨hb, hbid⟩]
      · intro hsub
        rw [hred]
        show (applyBusinessEffect _ s now).users = _
        rw [applyBusinessEffect_users]
        rw [if_pos hsub]
    · have hfound2 :
          (((paymentSuccess st s now).2).payments).find?
            (fun q => q.transactionId == s.paymentIntent) = some (mkPayment s now) := by
        rw [hpay]
        exact find?_append_singleton hfind (by simp [mkPayment])
      rw [paymentSuccess_found _ s now2 (mkPayment s now) hIntent hPaid hfound2]

def sessC2 : StripeSession :=
  { paymentIntent := "tx1", paymentStatus := "paid", amountTotal := 10000,
    currency := "bdt", customerEmail := "carol@example.com",
    metaPaymentType := "boost_issue", metaUserName := "Carol",
    metaUserEmail := "carol@example.com", metaUserImage := "", metaIssueId := "i1",
    metaIssueTitle := "Broken street light" }

def stC2 : Store :=
  { users := [userC7], issues := [issueC5], payments := [], timelines := [] }

/-- Witness for C2: settling a fresh boost payment inserts exactly one
record and answers with it, and replaying the settlement afterwards leaves
the store exactly as it was. -/
theorem payment_settlement_idempotent_witness :
    (paymentSuccess stC2 sessC2 11).1
      = SettleResult.settled true "tx1" (some (mkPayment sessC2 11))
    ∧ ((paymentSuccess stC2 sessC2 11).2).payments = stC2.payments ++ [mkPayment sessC2 11]
    ∧ payCount (paymentSuccess stC2 sessC2 11).2 "tx1" = 1
    ∧ (paymentSuccess (paymentSuccess stC2 sessC2 11).2 sessC2 12).2
        = (paymentSuccess stC2 sessC2 11).2 := by
  have h := payment_settlement_idempotent stC2 sessC2 11 12 (by decide) (by rfl)
  have hfresh := h.2.2.1 (by rfl)
  refine ⟨hfresh.2.1, hfresh.1, ?_, h.2.2.2⟩
  have h1 := h.1
  rw [if_pos (by rfl)] at h1
  exact h1

theorem storeInv_updateFirst {l : List Issue} {p : Issue → Bool} {f : Issue → Issue}
    (hl : ∀ i ∈ l, issueInv i) (hf : ∀ i, issueInv i → issueInv (f i)) :
    ∀ i ∈ updateFirst p f l, issueInv i := by
  intro i hi
  rcases mem_updateFirst hi with h | ⟨y, hy, rfl⟩
  · exact hl i h
  · exact hf y (hl y hy)

theorem storeInv_staffUpdateStatus (st : Store) (id email dn ns : String) (now : Nat)
    (h : storeInv st) : storeInv (staffUpdateStatus st id email dn ns now).2 := by
  unfold staffUpdateStatus
  split
  · exact h
  · split
    · exact h
    · split
      · exact h
      · split
        · exact storeInv_updateFirst h (fun j hj => hj)
        · exact h

theorem storeInv_citizenEditIssue (st : Store) (email dn id : String) (eb : EditBody)
    (now : Nat) (h : storeInv st) : storeInv (citizenEditIssue st email dn id eb now).2 := by
  unfold citizenEditIssue
  split
  · exact h
  · split
    · exact h
    · split
      · exact h
      · refine storeInv_updateFirst h (fun j hj => ?_)
        unfold issueInv at *
        split
        · exact hj
        · exact hj

theorem storeInv_rejectIssue (st : Store) (caller : User) (tokenEmail id : String)
    (now : Nat) (h : storeInv st) : storeInv (rejectIssue st caller tokenEmail id now).2 := by
  unfold rejectIssue
  split
  · exact h
  · split
    · exact h
    · exact storeInv_updateFirst h (fun j hj => hj)

theorem storeInv_adminRejectIssue (st : Store) (tokenEmail id : String) (now : Nat)
    (h : storeInv st) : storeInv (adminRejectIssue st tokenEmail id now).2 := by
  unfold adminRejectIssue
  split
  · exact h
  · exact storeInv_rejectIssue _ _ _ _ _ h

theorem storeInv_assignStaff (st : Store) (caller : User) (tokenEmail id staffId : String)
    (now : Nat) (h : storeInv st) :
    storeInv (assignStaff st caller tokenEmail id staffId now).2 := by
  unfold assignStaff
  split
  · exact h
  · split
    · exact h
    · split
      · exact h
      · exact storeInv_updateFirst h (fun j hj => hj)

theorem issueInv_forceIssueFields (body : Issue) (user : User) (newId : String)
    (now : Nat) : issueInv (forceIssueFields body user newId now) := by
  intro hb
  simp [forceIssueFields] at hb

theorem storeInv_append_forced {st : Store} (body : Issue) (user : User)
    (newId : String) (now : Nat) (h : storeInv st) :
    ∀ i ∈ st.issues ++ [forceIssueFields body user newId now], issueInv i := by
  intro i hi
  rcases List.mem_append.mp hi with hm | hm
  · exact h i hm
  · rw [List.mem_singleton.mp hm]
    exact issueInv_forceIssueFields body user newId now

theorem storeInv_createIssue (st : Store) (email : String) (body : Issue)
    (newId : String) (now : Nat) (h : storeInv st) :
    storeInv (createIssue st email body newId now).2 := by
  unfold createIssue
  split
  · exact h
  · exact storeInv_append_forced body _ newId now h

theorem storeInv_createIssueQuota (st : Store) (email : String) (body : Issue)
    (newId : String) (now : Nat) (h : storeInv st) :
    storeInv (createIssueQuota st email body newId now).2 := by
  unfold createIssueQuota
  split
  · exact h
  · split
    · exact h
    · exact storeInv_append_forced body _ newId now h

theorem storeInv_applyBusinessEffect (st : Store) (s : StripeSession) (now : Nat)
    (h : storeInv st) : storeInv (applyBusinessEffect st s now) := by
  intro i hi
  rw [applyBusinessEffect_issues] at hi
  split at hi
  · rcases mem_updateFirst hi with hm | ⟨y, _, rfl⟩
    · exact h i hm
    · intro _
      rfl
  · exact h i hi

theorem storeInv_paymentSuccess (st : Store) (s : StripeSession) (now : Nat)
    (h : storeInv st) : storeInv (paymentSuccess st s now).2 := by
  unfold paymentSuccess
  split
  · exact h
  · split
    · exact h
    · split
      · exact h
      · exact storeInv_applyBusinessEffect _ s now h

theorem storeInv_adminDeleteUser (st : Store) (tokenEmail id : String)
    (h : storeInv st) : storeInv (adminDeleteUser st tokenEmail id).2 := by
  unfold adminDeleteUser
  split
  · exact h
  · split
    · exact h
    · split
      · intro i hi
        exact h i (List.mem_filter.mp hi).1
      · exact h

/-- Claim C8: every issue record satisfying `isBoosted → priority = high` is
preserved by every store-mutating operation of the server; creation
initialises `isBoosted = false` with priority `normal`, and the boost
settlement's single update writes `isBoosted = true` together with priority
`high`. -/
theorem boost_invariant_preserved (st : Store) (h : storeInv st)
    (id email dn ns tokenEmail staffId newId : String) (now : Nat)
    (caller user : User) (body : Issue) (eb : EditBody) (s : StripeSession) :
    storeInv (staffUpdateStatus st id email dn ns now).2
    ∧ storeInv (citizenEditIssue st email dn id eb now).2
    ∧ storeInv (adminRejectIssue st tokenEmail id now).2
    ∧ storeInv (assignStaff st caller tokenEmail id staffId now).2
    ∧ storeInv (createIssue st email body newId now).2
    ∧ storeInv (createIssueQuota st email body newId now).2
    ∧ storeInv (paymentSuccess st s now).2
    ∧ storeInv (adminDeleteUser st tokenEmail id).2
    ∧ (forceIssueFields body user newId now).isBoosted = false
    ∧ (forceIssueFields body user newId now).priority = "normal"
    ∧ issueInv { body with priority := "high", isBoosted := true, updatedAt := now } :=
  ⟨storeInv_staffUpdateStatus st id email dn ns now h,
   storeInv_citizenEditIssue st email dn id eb now h,
   storeInv_adminRejectIssue st tokenEmail id now h,
   storeInv_assignStaff st caller tokenEmail id staffId now h,
   storeInv_createIssue st email body newId now h,
   storeInv_createIssueQuota st email body newId now h,
   storeInv_paymentSuccess st s now h,
   storeInv_adminDeleteUser st tokenEmail id h,
   rfl, rfl, fun _ => rfl⟩

/-- Witness for C8: on a concrete store satisfying the invariant, a status
advance, a fresh boost settlement and an issue creation all preserve it. -/
theorem boost_invariant_preserved_witness :
    storeInv (staffUpdateStatus stC1 "i1" "sam@example.com" "Sam" "in_progress" 5).2
    ∧ storeInv (paymentSuccess stC2 sessC2 11).2
    ∧ storeInv (createIssue stC10 "carol@example.com" bodyC10 "i9" 2).2 := by
  have h1 := boost_invariant_preserved stC1 (by decide) "i1" "sam@example.com" "Sam"
    "in_progress" "tok" "u2" "i9" 5 adminUserC9 userC7 bodyC10 bodyC6 sessC2
  have h2 := boost_invariant_preserved stC2 (by decide) "i1" "sam@example.com" "Sam"
    "in_progress" "tok" "u2" "i9" 11 adminUserC9 userC7 bodyC10 bodyC6 sessC2
  have h3 := boost_invariant_preserved stC10 (by decide) "i1" "carol@example.com" "Sam"
    "in_progress" "tok" "u2" "i9" 2 adminUserC9 userC7 bodyC10 bodyC6 sessC2
  exact ⟨h1.1, h2.2.2.2.2.2.2.1, h3.2.2.2.2.1⟩

end PublicInfra
